import Mathlib

/-!
Verification of the sunrise/sunset calculator (`sunrise.py`) against its
specification.  The numeric pipeline `calc` is embedded shallowly over the
real numbers: every intermediate quantity of the source (Julian date, Julian
day number, mean solar time, solar mean anomaly, equation of the center,
ecliptic longitude, solar transit, declination, hour angle) is a definition
translated line by line from the source.  Python's `math.fmod` is modelled by
truncated division, `math.ceil` by `Int.ceil`, and the two fallible library
calls are modelled faithfully: `math.acos` raising `ValueError` outside
`[-1, 1]` is the caught branch that produces the polar result, and
`math.sqrt` raising `ValueError` on a negative radicand is an uncaught
exception, modelled as the `Except.error` outcome.
-/

open Real

namespace Sunrise

open scoped Classical

/-- Truncation toward zero, as used by Python's `math.fmod`. -/
noncomputable def rtrunc (x : ℝ) : ℤ := if 0 ≤ x then ⌊x⌋ else ⌈x⌉

/-- Python's `math.fmod x y`: `x - y * trunc (x / y)`, result has the sign of `x`. -/
noncomputable def fmod (x y : ℝ) : ℝ := x - y * rtrunc (x / y)

/-- Degree to radian conversion, `math.radians`. -/
noncomputable def radians (d : ℝ) : ℝ := d * π / 180

/-- Radian to degree conversion, `math.degrees`. -/
noncomputable def degrees (r : ℝ) : ℝ := r * 180 / π

/-- Julian date to Unix timestamp (source line `j2ts`). -/
def j2ts (j : ℝ) : ℝ := (j - 2440587.5) * 86400

/-- Unix timestamp to Julian date (source line `ts2j`). -/
noncomputable def ts2j (ts : ℝ) : ℝ := ts / 86400.0 + 2440587.5

/-- Julian date of the input, `J_date = ts2j(current_timestamp)`. -/
noncomputable def J_date (ts : ℝ) : ℝ := ts2j ts

/-- Julian day `n = ceil(J_date - (2451545.0 + 0.0009) + 69.184 / 86400.0)`. -/
noncomputable def n (ts : ℝ) : ℤ := ⌈J_date ts - (2451545.0 + 0.0009) + 69.184 / 86400.0⌉

/-- Mean solar time `J_ = n + 0.0009 - l_w / 360.0`. -/
noncomputable def J_ (ts l_w : ℝ) : ℝ := (n ts : ℝ) + 0.0009 - l_w / 360.0

/-- Solar mean anomaly `M_degrees = fmod(357.5291 + 0.98560028 * J_, 360)`. -/
noncomputable def M_degrees (ts l_w : ℝ) : ℝ := fmod (357.5291 + 0.98560028 * J_ ts l_w) 360

/-- Radian form of the anomaly, `M_radians = radians(M_degrees)`. -/
noncomputable def M_radians (ts l_w : ℝ) : ℝ := radians (M_degrees ts l_w)

/-- Equation of the center `C_degrees`. -/
noncomputable def C_degrees (ts l_w : ℝ) : ℝ :=
  1.9148 * Real.sin (M_radians ts l_w) + 0.02 * Real.sin (2 * M_radians ts l_w) +
    0.0003 * Real.sin (3 * M_radians ts l_w)

/-- Ecliptic longitude `L_degrees = fmod(M_degrees + C_degrees + 180.0 + 102.9372, 360)`. -/
noncomputable def L_degrees (ts l_w : ℝ) : ℝ :=
  fmod (M_degrees ts l_w + C_degrees ts l_w + 180.0 + 102.9372) 360

/-- Radian form of the ecliptic longitude, `Lambda_radians = radians(L_degrees)`. -/
noncomputable def Lambda_radians (ts l_w : ℝ) : ℝ := radians (L_degrees ts l_w)

/-- Solar transit `J_transit = 2451545.0 + J_ + 0.0053*sin(M) - 0.0069*sin(2*Lambda)`. -/
noncomputable def J_transit (ts l_w : ℝ) : ℝ :=
  2451545.0 + J_ ts l_w + 0.0053 * Real.sin (M_radians ts l_w) -
    0.0069 * Real.sin (2 * Lambda_radians ts l_w)

/-- Declination of the sun: `sin_d = sin(Lambda_radians) * sin(radians(23.4397))`. -/
noncomputable def sin_d (ts l_w : ℝ) : ℝ :=
  Real.sin (Lambda_radians ts l_w) * Real.sin (radians 23.4397)

/-- Cosine of the declination, `cos_d = cos(asin(sin_d))`. -/
noncomputable def cos_d (ts l_w : ℝ) : ℝ := Real.cos (Real.arcsin (sin_d ts l_w))

/-- Hour-angle cosine argument (source variable `some_cos`). -/
noncomputable def some_cos (ts f l_w elevation : ℝ) : ℝ :=
  (Real.sin (radians (-0.833 - 2.076 * Real.sqrt elevation / 60.0)) -
      Real.sin (radians f) * sin_d ts l_w) /
    (Real.cos (radians f) * cos_d ts l_w)

/-- Hour angle in radians, `w0_radians = acos(some_cos)` (defined branch). -/
noncomputable def w0_radians (ts f l_w elevation : ℝ) : ℝ :=
  Real.arccos (some_cos ts f l_w elevation)

/-- Hour angle in degrees, `w0_degrees = degrees(w0_radians)`. -/
noncomputable def w0_degrees (ts f l_w elevation : ℝ) : ℝ :=
  degrees (w0_radians ts f l_w elevation)

/-- Sunrise Julian date `j_rise = J_transit - w0_degrees / 360`. -/
noncomputable def j_rise (ts f l_w elevation : ℝ) : ℝ :=
  J_transit ts l_w - w0_degrees ts f l_w elevation / 360

/-- Sunset Julian date `j_set = J_transit + w0_degrees / 360`. -/
noncomputable def j_set (ts f l_w elevation : ℝ) : ℝ :=
  J_transit ts l_w + w0_degrees ts f l_w elevation / 360

/-- The solar transit instant as a Unix timestamp. -/
noncomputable def transitTs (ts l_w : ℝ) : ℝ := j2ts (J_transit ts l_w)

/-- Result type of `calc`: either the paired rise/set timestamps
(`(float, float, None)` in the source) or the polar-condition flag
(`(None, None, bool)` in the source, the flag being `some_cos > 0.0`). -/
inductive CalcResult where
  | pair (rise sunset : ℝ) : CalcResult
  | polar (flag : Bool) : CalcResult

/-- The one uncaught exception the source can raise: `math.sqrt` on a
negative radicand (negative `elevation`) raises `ValueError`, and no handler
catches it. -/
inductive SunError where
  | sqrtNegative : SunError

/-- The full `calc` function.  `math.sqrt` raises on `elevation < 0`
(uncaught, hence `Except.error`); `math.acos` raises exactly when its
argument lies outside `[-1, 1]`, which the source catches and converts into
the polar result `(None, None, some_cos > 0.0)`; otherwise the paired
`(j2ts(j_rise), j2ts(j_set), None)` is returned. -/
noncomputable def calculate (ts f l_w elevation : ℝ) : Except SunError CalcResult :=
  if elevation < 0 then .error .sqrtNegative
  else if 1 < some_cos ts f l_w elevation ∨ some_cos ts f l_w elevation < -1 then
    .ok (.polar (decide (0 < some_cos ts f l_w elevation)))
  else .ok (.pair (j2ts (j_rise ts f l_w elevation)) (j2ts (j_set ts f l_w elevation)))

/-- Boolean success discriminator for the embedded result. -/
def isOkB : Except SunError CalcResult → Bool
  | .ok _ => true
  | .error _ => false

/-! ### Generic structural lemmas about `calculate` -/

theorem calculate_polar_true (ts f l_w e : ℝ) (he : 0 ≤ e)
    (h : 1 < some_cos ts f l_w e) :
    calculate ts f l_w e = .ok (.polar true) := by
  unfold calculate
  rw [if_neg (not_lt.2 he), if_pos (Or.inl h)]
  have : (0:ℝ) < some_cos ts f l_w e := lt_trans one_pos h
  simp [this]

theorem calculate_polar_false (ts f l_w e : ℝ) (he : 0 ≤ e)
    (h : some_cos ts f l_w e < -1) :
    calculate ts f l_w e = .ok (.polar false) := by
  unfold calculate
  rw [if_neg (not_lt.2 he), if_pos (Or.inr h)]
  have : ¬ (0:ℝ) < some_cos ts f l_w e := by
    intro hc
    linarith
  simp [this]

theorem calculate_pair (ts f l_w e : ℝ) (he : 0 ≤ e)
    (h1 : -1 ≤ some_cos ts f l_w e) (h2 : some_cos ts f l_w e ≤ 1) :
    calculate ts f l_w e =
      .ok (.pair (j2ts (j_rise ts f l_w e)) (j2ts (j_set ts f l_w e))) := by
  unfold calculate
  rw [if_neg (not_lt.2 he), if_neg]
  push_neg
  exact ⟨h2, h1⟩

/-- Inversion: a returned pair comes from the in-range branch. -/
theorem calculate_pair_inv (ts f l_w e r s : ℝ)
    (h : calculate ts f l_w e = .ok (.pair r s)) :
    0 ≤ e ∧ -1 ≤ some_cos ts f l_w e ∧ some_cos ts f l_w e ≤ 1 ∧
      r = j2ts (j_rise ts f l_w e) ∧ s = j2ts (j_set ts f l_w e) := by
  unfold calculate at h
  by_cases he : e < 0
  · rw [if_pos he] at h
    exact absurd h (by simp)
  · rw [if_neg he] at h
    by_cases hc : 1 < some_cos ts f l_w e ∨ some_cos ts f l_w e < -1
    · rw [if_pos hc] at h
      exact absurd h (by simp)
    · rw [if_neg hc] at h
      push_neg at hc he
      injection h with h
      injection h with hr hs
      exact ⟨he, hc.2, hc.1, hr.symm, hs.symm⟩

/-! ### Bounds on `fmod` -/

theorem fmod_lt (x y : ℝ) (hy : 0 < y) : fmod x y < y := by
  unfold fmod rtrunc
  by_cases h : 0 ≤ x / y
  · rw [if_pos h]
    have h1 : x / y < ⌊x / y⌋ + 1 := Int.lt_floor_add_one _
    have h2 : x / y * y = x := div_mul_cancel₀ x (ne_of_gt hy)
    nlinarith [h1]
  · rw [if_neg h]
    push_neg at h
    have h1 : x / y ≤ ⌈x / y⌉ := Int.le_ceil _
    have h2 : x / y * y = x := div_mul_cancel₀ x (ne_of_gt hy)
    nlinarith [h1]

theorem neg_lt_fmod (x y : ℝ) (hy : 0 < y) : -y < fmod x y := by
  unfold fmod rtrunc
  by_cases h : 0 ≤ x / y
  · rw [if_pos h]
    have h1 : (⌊x / y⌋ : ℝ) ≤ x / y := Int.floor_le _
    have h2 : x / y * y = x := div_mul_cancel₀ x (ne_of_gt hy)
    nlinarith [h1]
  · rw [if_neg h]
    have h1 : (⌈x / y⌉ : ℝ) < x / y + 1 := Int.ceil_lt_add_one _
    have h2 : x / y * y = x := div_mul_cancel₀ x (ne_of_gt hy)
    nlinarith [h1]

theorem fmod_nonneg_of_nonneg (x y : ℝ) (hy : 0 < y) (hx : 0 ≤ x) : 0 ≤ fmod x y := by
  unfold fmod rtrunc
  have h : 0 ≤ x / y := div_nonneg hx (le_of_lt hy)
  rw [if_pos h]
  have h1 : (⌊x / y⌋ : ℝ) ≤ x / y := Int.floor_le _
  have h2 : x / y * y = x := div_mul_cancel₀ x (ne_of_gt hy)
  nlinarith [h1]

/-- Evaluation of `fmod` on a nonnegative argument lying in the window
`[k*y, (k+1)*y)`. -/
theorem fmod_eval_nonneg (x y : ℝ) (k : ℤ) (hy : 0 < y) (hx : 0 ≤ x)
    (h1 : (k : ℝ) * y ≤ x) (h2 : x < ((k : ℝ) + 1) * y) : fmod x y = x - y * k := by
  unfold fmod rtrunc
  have h : 0 ≤ x / y := div_nonneg hx (le_of_lt hy)
  rw [if_pos h]
  have hk : ⌊x / y⌋ = k := by
    rw [Int.floor_eq_iff]
    constructor
    · rw [le_div_iff₀ hy]
      exact h1
    · rw [div_lt_iff₀ hy]
      exact h2
  rw [hk]

/-- Evaluation of `fmod` on a negative argument lying in the window
`((k-1)*y, k*y]`. -/
theorem fmod_eval_neg (x y : ℝ) (k : ℤ) (hy : 0 < y) (hx : x < 0)
    (h1 : ((k : ℝ) - 1) * y < x) (h2 : x ≤ (k : ℝ) * y) : fmod x y = x - y * k := by
  unfold fmod rtrunc
  have h : ¬ 0 ≤ x / y := by
    rw [not_le]
    exact div_neg_of_neg_of_pos hx hy
  rw [if_neg h]
  have hk : ⌈x / y⌉ = k := by
    rw [Int.ceil_eq_iff]
    constructor
    · rw [lt_div_iff₀ hy]
      linarith
    · rw [div_le_iff₀ hy]
      exact h2
  rw [hk]

/-! ### Claim C4: the Julian conversions are exact inverses -/

/-- C4: for every finite real timestamp `ts`, `j2ts (ts2j ts) = ts`, and for
every finite Julian date `j`, `ts2j (j2ts j) = j`; both conversions are total
(no error conditions).  In the real-number embedding the round trip is exact. -/
theorem C4_roundtrip :
    (∀ ts : ℝ, j2ts (ts2j ts) = ts) ∧ (∀ j : ℝ, ts2j (j2ts j) = j) := by
  constructor
  · intro ts
    unfold j2ts ts2j
    ring
  · intro j
    unfold j2ts ts2j
    ring

/-! ### Claim C5: negative elevation -/

/-- C5 evaluation: at the failing input `elevation = -1` the code propagates
the raw `math.sqrt` domain fault (`ValueError`), rather than signalling an
`InvalidElevation` validation error or clamping the elevation to zero. -/
theorem C5_sqrt_fault : calculate 0 0 0 (-1) = .error .sqrtNegative := by
  unfold calculate
  rw [if_pos]
  norm_num

/-! ### Claim C6: totality on the valid domain -/

/-- C6: for every timestamp, latitude in `[-90, 90]`, longitude and
nonnegative elevation, `calc` returns an ordinary value (paired result or
polar flag); the out-of-domain arc-cosine is a returned value, not a thrown
error. -/
theorem C6_total (ts f l_w e : ℝ) (h1 : -90 ≤ f) (h2 : f ≤ 90) (h3 : 0 ≤ e) :
    isOkB (calculate ts f l_w e) = true := by
  unfold calculate
  rw [if_neg (not_lt.2 h3)]
  by_cases hc : 1 < some_cos ts f l_w e ∨ some_cos ts f l_w e < -1
  · rw [if_pos hc]
    rfl
  · rw [if_neg hc]
    rfl

/-- Witness for C6 at the degenerate input `latitude = 90`, `elevation = 0`. -/
theorem C6_total_witness : isOkB (calculate 0 90 0 0) = true :=
  C6_total 0 90 0 0 (by norm_num) (by norm_num) (by norm_num)

/-! ### Claim C9: the result depends on the timestamp only through `n` -/

/-- C9: two timestamps with the same Julian day number `n` produce identical
results for identical latitude, longitude and elevation: the time-of-day part
of the input never influences the output inside one day window. -/
theorem C9_day_granularity (ts1 ts2 f l_w e : ℝ) (h : n ts1 = n ts2) :
    calculate ts1 f l_w e = calculate ts2 f l_w e := by
  simp only [calculate, some_cos, sin_d, cos_d, Lambda_radians, L_degrees, C_degrees,
    M_radians, M_degrees, J_transit, j_rise, j_set, w0_degrees, w0_radians, J_, h]

/-- Witness for C9: timestamps `0` and `1` (one second apart) share
`n = -10957` and hence produce identical results. -/
theorem C9_day_granularity_witness : calculate 0 0 0 0 = calculate 1 0 0 0 := by
  apply C9_day_granularity
  unfold n J_date ts2j
  have h0 : ⌈(0:ℝ) / 86400.0 + 2440587.5 - (2451545.0 + 0.0009) + 69.184 / 86400.0⌉ =
      (-10957 : ℤ) := by
    rw [Int.ceil_eq_iff]
    norm_num
  have h1 : ⌈(1:ℝ) / 86400.0 + 2440587.5 - (2451545.0 + 0.0009) + 69.184 / 86400.0⌉ =
      (-10957 : ℤ) := by
    rw [Int.ceil_eq_iff]
    norm_num
  rw [h0, h1]

/-! ### Concrete dates used by witnesses and counterexamples

`tsW = 19712 * 86400` is 2023-12-21T00:00:00Z, a day inside astronomical
winter; `tsS = 19895 * 86400` is 2024-06-21T00:00:00Z, inside astronomical
summer. -/

def tsW : ℝ := 1703116800

def tsS : ℝ := 1718928000

theorem n_tsW : n tsW = 8755 := by
  unfold n J_date ts2j tsW
  rw [Int.ceil_eq_iff]
  norm_num

theorem n_tsS : n tsS = 8938 := by
  unfold n J_date ts2j tsS
  rw [Int.ceil_eq_iff]
  norm_num

theorem n_zero : n 0 = -10957 := by
  unfold n J_date ts2j
  rw [Int.ceil_eq_iff]
  norm_num

theorem J_tsW : J_ tsW 0 = 8755.0009 := by
  unfold J_
  rw [n_tsW]
  norm_num

theorem J_tsS : J_ tsS 0 = 8938.0009 := by
  unfold J_
  rw [n_tsS]
  norm_num

/-- The equation of the center is bounded by the sum of its coefficients. -/
theorem C_degrees_bounds (ts l_w : ℝ) :
    -1.9351 ≤ C_degrees ts l_w ∧ C_degrees ts l_w ≤ 1.9351 := by
  unfold C_degrees
  have h1 := Real.neg_one_le_sin (M_radians ts l_w)
  have h2 := Real.sin_le_one (M_radians ts l_w)
  have h3 := Real.neg_one_le_sin (2 * M_radians ts l_w)
  have h4 := Real.sin_le_one (2 * M_radians ts l_w)
  have h5 := Real.neg_one_le_sin (3 * M_radians ts l_w)
  have h6 := Real.sin_le_one (3 * M_radians ts l_w)
  constructor <;> nlinarith

theorem M_tsW : M_degrees tsW 0 = 86615109610063 / 250000000000 := by
  unfold M_degrees
  rw [J_tsW, fmod_eval_nonneg _ _ 24 (by norm_num) (by norm_num) (by norm_num) (by norm_num)]
  norm_num

theorem M_tsS : M_degrees tsS 0 = 41706322420063 / 250000000000 := by
  unfold M_degrees
  rw [J_tsS, fmod_eval_nonneg _ _ 25 (by norm_num) (by norm_num) (by norm_num) (by norm_num)]
  norm_num

/-! ### Claim C7: range of the anomaly and the ecliptic longitude -/

/-- C7 counterexample: at timestamp `0` (1970-01-01, long before the J2000
epoch) the `fmod` argument is negative, and the solar mean anomaly returned
by the code is negative, hence not in `[0, 360)` as claimed. -/
theorem C7_counterexample : M_degrees 0 0 < 0 := by
  unfold M_degrees
  have hJ : J_ 0 0 = -10956.9991 := by
    unfold J_
    rw [n_zero]
    norm_num
  rw [hJ, fmod_eval_neg _ _ (-29) (by norm_num) (by norm_num) (by norm_num) (by norm_num)]
  norm_num

/-- C7 (amended): the Python `fmod` keeps the sign of its first argument, so
`M_degrees` and `L_degrees` always lie in the open interval `(-360, 360)`,
and they lie in `[0, 360)` exactly when the corresponding `fmod` argument is
nonnegative (which holds, e.g., for timestamps at or after the chosen winter
day of 2023). -/
theorem C7_anomaly_range (ts l_w : ℝ) :
    (-360 < M_degrees ts l_w ∧ M_degrees ts l_w < 360) ∧
    (-360 < L_degrees ts l_w ∧ L_degrees ts l_w < 360) ∧
    (0 ≤ 357.5291 + 0.98560028 * J_ ts l_w → 0 ≤ M_degrees ts l_w) ∧
    (0 ≤ M_degrees ts l_w + C_degrees ts l_w + 180.0 + 102.9372 →
      0 ≤ L_degrees ts l_w) := by
  refine ⟨⟨?_, ?_⟩, ⟨?_, ?_⟩, ?_, ?_⟩
  · exact neg_lt_fmod _ _ (by norm_num)
  · exact fmod_lt _ _ (by norm_num)
  · exact neg_lt_fmod _ _ (by norm_num)
  · exact fmod_lt _ _ (by norm_num)
  · intro h
    exact fmod_nonneg_of_nonneg _ _ (by norm_num) h
  · intro h
    exact fmod_nonneg_of_nonneg _ _ (by norm_num) h

/-- Witness for C7 on the winter day: both `fmod` arguments are nonnegative
there, and the amended theorem yields `0 ≤ M < 360` and `0 ≤ L < 360`. -/
theorem C7_anomaly_range_witness :
    (0 ≤ 357.5291 + 0.98560028 * J_ tsW 0) ∧
    (0 ≤ M_degrees tsW 0 + C_degrees tsW 0 + 180.0 + 102.9372) ∧
    0 ≤ M_degrees tsW 0 ∧ M_degrees tsW 0 < 360 ∧
    0 ≤ L_degrees tsW 0 ∧ L_degrees tsW 0 < 360 := by
  have hC := C_degrees_bounds tsW 0
  have h1 : 0 ≤ 357.5291 + 0.98560028 * J_ tsW 0 := by
    rw [J_tsW]
    norm_num
  have h2 : 0 ≤ M_degrees tsW 0 + C_degrees tsW 0 + 180.0 + 102.9372 := by
    rw [M_tsW]
    nlinarith [hC.1]
  exact ⟨h1, h2, (C7_anomaly_range tsW 0).2.2.1 h1, (C7_anomaly_range tsW 0).1.2,
    (C7_anomaly_range tsW 0).2.2.2 h2, (C7_anomaly_range tsW 0).2.1.2⟩

/-! ### Numeric bounds on the fixed trigonometric quantities -/

theorem sineps_bounds :
    0.39198 ≤ Real.sin (radians 23.4397) ∧ Real.sin (radians 23.4397) ≤ 0.40910 := by
  have hpi1 : (3.141592:ℝ) < π := Real.pi_gt_d6
  have hpi2 : π < 3.141593 := Real.pi_lt_d6
  have hlo : (0.4090998:ℝ) ≤ radians 23.4397 := by
    unfold radians
    nlinarith
  have hhi : radians 23.4397 ≤ 0.40910 := by
    unfold radians
    nlinarith
  have hpos : (0:ℝ) < radians 23.4397 := by linarith
  have h1 := Real.sin_gt_sub_cube hpos (by linarith)
  have h2 := Real.sin_lt hpos
  have hcube : radians 23.4397 ^ 3 ≤ 0.40910 ^ 3 := by
    have := pow_le_pow_left₀ (le_of_lt hpos) hhi 3
    linarith [this]
  constructor
  · nlinarith
  · linarith

theorem abs_sin_d_le (ts l_w : ℝ) : |sin_d ts l_w| ≤ 0.40910 := by
  unfold sin_d
  rw [abs_mul]
  have h1 : |Real.sin (Lambda_radians ts l_w)| ≤ 1 := Real.abs_sin_le_one _
  have h2 : |Real.sin (radians 23.4397)| ≤ 0.40910 := by
    rw [abs_le]
    have := sineps_bounds
    constructor <;> linarith [this.1, this.2]
  have h3 : (0:ℝ) ≤ |Real.sin (Lambda_radians ts l_w)| := abs_nonneg _
  have h4 : (0:ℝ) ≤ |Real.sin (radians 23.4397)| := abs_nonneg _
  nlinarith

theorem cos_d_bounds (ts l_w : ℝ) : 0.9124 ≤ cos_d ts l_w ∧ cos_d ts l_w ≤ 1 := by
  unfold cos_d
  rw [Real.cos_arcsin]
  have habs := abs_sin_d_le ts l_w
  have hsq : sin_d ts l_w ^ 2 ≤ 0.40910 ^ 2 := by
    have := sq_abs (sin_d ts l_w)
    nlinarith [abs_nonneg (sin_d ts l_w)]
  constructor
  · rw [Real.le_sqrt (by norm_num) (by nlinarith)]
    nlinarith
  · calc Real.sqrt (1 - sin_d ts l_w ^ 2) ≤ Real.sqrt 1 :=
        Real.sqrt_le_sqrt (by nlinarith [sq_nonneg (sin_d ts l_w)])
    _ = 1 := Real.sqrt_one

theorem cos_d_pos (ts l_w : ℝ) : 0 < cos_d ts l_w :=
  lt_of_lt_of_le (by norm_num) (cos_d_bounds ts l_w).1

/-! ### Winter-day bounds -/

theorem L_tsW_bounds : 267.462 ≤ L_degrees tsW 0 ∧ L_degrees tsW 0 ≤ 271.333 := by
  unfold L_degrees
  obtain ⟨hC1, hC2⟩ := C_degrees_bounds tsW 0
  rw [M_tsW, fmod_eval_nonneg _ _ 1 (by norm_num) (by nlinarith) (by push_cast; nlinarith)
    (by push_cast; nlinarith)]
  constructor <;> push_cast <;> nlinarith

theorem sinL_tsW : Real.sin (Lambda_radians tsW 0) ≤ -0.999 := by
  have hL := L_tsW_bounds
  have hpi1 : (3.141592:ℝ) < π := Real.pi_gt_d6
  have hpi2 : π < 3.141593 := Real.pi_lt_d6
  have hid : Real.sin (Lambda_radians tsW 0) =
      -Real.cos (Lambda_radians tsW 0 - 3 * π / 2) := by
    rw [Real.cos_sub]
    have h1 : (3:ℝ) * π / 2 = π + π / 2 := by ring
    have hc : Real.cos (3 * π / 2) = 0 := by
      rw [h1, Real.cos_add]
      simp
    have hs : Real.sin (3 * π / 2) = -1 := by
      rw [h1, Real.sin_add]
      simp
    rw [hc, hs]
    ring
  have hβ : Lambda_radians tsW 0 - 3 * π / 2 = (L_degrees tsW 0 - 270) * π / 180 := by
    unfold Lambda_radians radians
    ring
  have hpisq : π ^ 2 ≤ 9.8697 := by nlinarith
  have hu2 : (L_degrees tsW 0 - 270) ^ 2 ≤ 6.45 := by
    nlinarith [hL.1, hL.2]
  have hb2 : (Lambda_radians tsW 0 - 3 * π / 2) ^ 2 ≤ 0.0444 ^ 2 := by
    rw [hβ]
    have h : ((L_degrees tsW 0 - 270) * π / 180) ^ 2 =
        (L_degrees tsW 0 - 270) ^ 2 * π ^ 2 / 32400 := by ring
    rw [h]
    nlinarith [sq_nonneg (L_degrees tsW 0 - 270), sq_nonneg π]
  have hcos := Real.one_sub_sq_div_two_le_cos (x := Lambda_radians tsW 0 - 3 * π / 2)
  rw [hid]
  nlinarith

theorem sin_d_tsW_bounds : -0.40910 ≤ sin_d tsW 0 ∧ sin_d tsW 0 ≤ -0.3915 := by
  have hs := sineps_bounds
  have hΛ := sinL_tsW
  have h1 := Real.neg_one_le_sin (Lambda_radians tsW 0)
  unfold sin_d
  constructor <;> nlinarith [hs.1, hs.2, hΛ, h1]

/-! ### Summer-day bounds -/

theorem L_tsS_bounds : 87.827 ≤ L_degrees tsS 0 ∧ L_degrees tsS 0 ≤ 91.698 := by
  unfold L_degrees
  obtain ⟨hC1, hC2⟩ := C_degrees_bounds tsS 0
  rw [M_tsS, fmod_eval_nonneg _ _ 1 (by norm_num) (by nlinarith) (by push_cast; nlinarith)
    (by push_cast; nlinarith)]
  constructor <;> push_cast <;> nlinarith

theorem sinL_tsS : 0.999 ≤ Real.sin (Lambda_radians tsS 0) := by
  have hL := L_tsS_bounds
  have hpi1 : (3.141592:ℝ) < π := Real.pi_gt_d6
  have hpi2 : π < 3.141593 := Real.pi_lt_d6
  have hid : Real.sin (Lambda_radians tsS 0) =
      Real.cos (Lambda_radians tsS 0 - π / 2) := by
    rw [Real.cos_sub]
    simp
  have hβ : Lambda_radians tsS 0 - π / 2 = (L_degrees tsS 0 - 90) * π / 180 := by
    unfold Lambda_radians radians
    ring
  have hpisq : π ^ 2 ≤ 9.8697 := by nlinarith
  have hu2 : (L_degrees tsS 0 - 90) ^ 2 ≤ 4.73 := by
    nlinarith [hL.1, hL.2]
  have hb2 : (Lambda_radians tsS 0 - π / 2) ^ 2 ≤ 0.038 ^ 2 := by
    rw [hβ]
    have h : ((L_degrees tsS 0 - 90) * π / 180) ^ 2 =
        (L_degrees tsS 0 - 90) ^ 2 * π ^ 2 / 32400 := by ring
    rw [h]
    nlinarith [sq_nonneg (L_degrees tsS 0 - 90), sq_nonneg π]
  have hcos := Real.one_sub_sq_div_two_le_cos (x := Lambda_radians tsS 0 - π / 2)
  rw [hid]
  nlinarith

theorem sin_d_tsS_bounds : 0.3915 ≤ sin_d tsS 0 ∧ sin_d tsS 0 ≤ 0.40910 := by
  have hs := sineps_bounds
  have hΛ := sinL_tsS
  have h1 := Real.sin_le_one (Lambda_radians tsS 0)
  unfold sin_d
  constructor <;> nlinarith [hs.1, hs.2, hΛ, h1]

/-! ### Bounds at latitude 89 and the refraction angle -/

theorem sin_rad833_bounds :
    0 < Real.sin (radians 0.833) ∧ Real.sin (radians 0.833) < 0.0145386 := by
  have hpi1 : (3.141592:ℝ) < π := Real.pi_gt_d6
  have hpi2 : π < 3.141593 := Real.pi_lt_d6
  have hlo : (0.0145385:ℝ) ≤ radians 0.833 := by
    unfold radians
    nlinarith
  have hhi : radians 0.833 ≤ 0.0145386 := by
    unfold radians
    nlinarith
  have hpos : (0:ℝ) < radians 0.833 := by linarith
  exact ⟨Real.sin_pos_of_pos_of_lt_pi hpos (by linarith),
    lt_of_lt_of_le (Real.sin_lt hpos) hhi⟩

theorem rad89_eq : radians 89 = π / 2 - radians 1 := by
  unfold radians
  ring

theorem rad1_bounds : 0.0174532 ≤ radians 1 ∧ radians 1 ≤ 0.0174533 := by
  have hpi1 : (3.141592:ℝ) < π := Real.pi_gt_d6
  have hpi2 : π < 3.141593 := Real.pi_lt_d6
  unfold radians
  constructor <;> nlinarith

theorem sin_rad89_bounds :
    0.99984 ≤ Real.sin (radians 89) ∧ Real.sin (radians 89) ≤ 1 := by
  rw [rad89_eq, Real.sin_pi_div_two_sub]
  have hr := rad1_bounds
  have hcos := Real.one_sub_sq_div_two_le_cos (x := radians 1)
  constructor
  · nlinarith [hr.1, hr.2]
  · exact Real.cos_le_one _

theorem cos_rad89_bounds :
    0 < Real.cos (radians 89) ∧ Real.cos (radians 89) ≤ 0.0174533 := by
  rw [rad89_eq, Real.cos_pi_div_two_sub]
  have hpi1 : (3.141592:ℝ) < π := Real.pi_gt_d6
  have hr := rad1_bounds
  have hpos : (0:ℝ) < radians 1 := by linarith [hr.1]
  exact ⟨Real.sin_pos_of_pos_of_lt_pi hpos (by linarith [hr.2]),
    le_trans (le_of_lt (Real.sin_lt hpos)) hr.2⟩

/-- On the winter day at latitude 89 (elevation 0) the hour-angle cosine
argument exceeds 1: the required elevation angle is unreachable, the sun
never rises. -/
theorem some_cos_tsW_89 : 1 < some_cos tsW 89 0 0 := by
  unfold some_cos
  have h0 : (-0.833 - 2.076 * Real.sqrt 0 / 60.0 : ℝ) = -0.833 := by
    rw [Real.sqrt_zero]
    norm_num
  rw [h0]
  have hneg : radians (-0.833) = -radians 0.833 := by
    unfold radians
    ring
  rw [hneg, Real.sin_neg]
  have h833 := sin_rad833_bounds
  have h89s := sin_rad89_bounds
  have h89c := cos_rad89_bounds
  have hcd := cos_d_bounds tsW 0
  have hsd := sin_d_tsW_bounds
  have hden : 0 < Real.cos (radians 89) * cos_d tsW 0 :=
    mul_pos h89c.1 (cos_d_pos tsW 0)
  rw [one_lt_div hden]
  nlinarith [h833.1, h833.2, h89s.1, h89s.2, h89c.1, h89c.2, hcd.1, hcd.2, hsd.1, hsd.2]

/-- On the summer day at latitude 89 (elevation 0) the hour-angle cosine
argument is below -1: the horizon condition holds at all hour angles, the
sun never sets. -/
theorem some_cos_tsS_89 : some_cos tsS 89 0 0 < -1 := by
  unfold some_cos
  have h0 : (-0.833 - 2.076 * Real.sqrt 0 / 60.0 : ℝ) = -0.833 := by
    rw [Real.sqrt_zero]
    norm_num
  rw [h0]
  have hneg : radians (-0.833) = -radians 0.833 := by
    unfold radians
    ring
  rw [hneg, Real.sin_neg]
  have h833 := sin_rad833_bounds
  have h89s := sin_rad89_bounds
  have h89c := cos_rad89_bounds
  have hcd := cos_d_bounds tsS 0
  have hsd := sin_d_tsS_bounds
  have hden : 0 < Real.cos (radians 89) * cos_d tsS 0 :=
    mul_pos h89c.1 (cos_d_pos tsS 0)
  rw [div_lt_iff₀ hden]
  nlinarith [h833.1, h833.2, h89s.1, h89s.2, h89c.1, h89c.2, hcd.1, hcd.2, hsd.1, hsd.2]

/-! ### Claim C1: the polar-condition flag -/

/-- C1 (amended): the code's polar flag is the test `some_cos > 0.0`, so its
polarity is the opposite of the claim: when `cosArg > 1` (sun never rises)
the returned flag is `true`, and when `cosArg < -1` (sun never sets) it is
`false`.  In particular, near the pole (latitude 89, where real-valued
arithmetic keeps the denominator nonzero; at exactly latitude 90 the real
denominator vanishes) with elevation 0, a winter day returns flag `true` and
a summer day returns flag `false`. -/
theorem C1_polar_flag :
    (∀ ts f l_w e : ℝ, 0 ≤ e → 1 < some_cos ts f l_w e →
      calculate ts f l_w e = .ok (.polar true)) ∧
    (∀ ts f l_w e : ℝ, 0 ≤ e → some_cos ts f l_w e < -1 →
      calculate ts f l_w e = .ok (.polar false)) ∧
    calculate tsW 89 0 0 = .ok (.polar true) ∧
    calculate tsS 89 0 0 = .ok (.polar false) :=
  ⟨fun ts f l_w e he h => calculate_polar_true ts f l_w e he h,
   fun ts f l_w e he h => calculate_polar_false ts f l_w e he h,
   calculate_polar_true _ _ _ _ le_rfl some_cos_tsW_89,
   calculate_polar_false _ _ _ _ le_rfl some_cos_tsS_89⟩

/-- Witness for C1 at the winter input: the hypothesis `cosArg > 1` holds
there and the theorem returns the polar flag `true`. -/
theorem C1_polar_flag_witness :
    (0:ℝ) ≤ 0 ∧ 1 < some_cos tsW 89 0 0 ∧ calculate tsW 89 0 0 = .ok (.polar true) :=
  ⟨le_rfl, some_cos_tsW_89, C1_polar_flag.1 tsW 89 0 0 le_rfl some_cos_tsW_89⟩

/-- C1 counterexample: on the winter day at latitude 89, elevation 0, the
hour-angle cosine argument exceeds 1 (sun never rises), yet the returned
flag is `true` — not `false` as the claim states. -/
theorem C1_counterexample :
    1 < some_cos tsW 89 0 0 ∧ calculate tsW 89 0 0 = .ok (.polar true) ∧
      (Except.ok (CalcResult.polar true) : Except SunError CalcResult) ≠
        .ok (.polar false) := by
  refine ⟨some_cos_tsW_89, calculate_polar_true _ _ _ _ le_rfl some_cos_tsW_89, by simp⟩

/-! ### A generic paired result: latitude 0, elevation 0 -/

/-- At the equator with elevation 0 the hour-angle cosine argument is a small
negative number, for every timestamp and longitude. -/
theorem some_cos_lat_zero (ts l_w : ℝ) :
    -1 < some_cos ts 0 l_w 0 ∧ some_cos ts 0 l_w 0 < 0 := by
  unfold some_cos
  have h0 : (-0.833 - 2.076 * Real.sqrt 0 / 60.0 : ℝ) = -0.833 := by
    rw [Real.sqrt_zero]
    norm_num
  rw [h0]
  have hz : radians 0 = 0 := by
    unfold radians
    ring
  rw [hz, Real.sin_zero, Real.cos_zero]
  have hneg : radians (-0.833) = -radians 0.833 := by
    unfold radians
    ring
  rw [hneg, Real.sin_neg]
  have h833 := sin_rad833_bounds
  have hcd := cos_d_bounds ts l_w
  have hden : (0:ℝ) < 1 * cos_d ts l_w := by nlinarith [hcd.1]
  constructor
  · rw [lt_div_iff₀ hden]
    nlinarith [h833.1, h833.2, hcd.1, hcd.2]
  · apply div_neg_of_neg_of_pos _ hden
    nlinarith [h833.1]

/-- At the equator with elevation 0, `calc` returns the paired result. -/
theorem calculate_lat_zero (ts l_w : ℝ) :
    calculate ts 0 l_w 0 =
      .ok (.pair (j2ts (j_rise ts 0 l_w 0)) (j2ts (j_set ts 0 l_w 0))) :=
  calculate_pair ts 0 l_w 0 le_rfl (le_of_lt (some_cos_lat_zero ts l_w).1)
    (le_of_lt (lt_trans (some_cos_lat_zero ts l_w).2 one_pos))

/-! ### Claim C3: symmetry of sunrise and sunset about the transit -/

/-- C3: whenever `calc` returns a paired result, the sunset is as far after
the solar transit as the sunrise is before it, and both offsets equal
`w0/360` of a day (`* 86400` in seconds). -/
theorem C3_symmetry (ts f l_w e r s : ℝ)
    (h : calculate ts f l_w e = .ok (.pair r s)) :
    s - transitTs ts l_w = transitTs ts l_w - r ∧
    s - transitTs ts l_w = w0_degrees ts f l_w e / 360 * 86400 := by
  obtain ⟨-, -, -, hr, hs⟩ := calculate_pair_inv ts f l_w e r s h
  subst hr hs
  unfold transitTs j2ts j_rise j_set
  constructor <;> ring

/-- Witness for C3 at the equator on the Unix epoch. -/
theorem C3_symmetry_witness :
    calculate 0 0 0 0 = .ok (.pair (j2ts (j_rise 0 0 0 0)) (j2ts (j_set 0 0 0 0))) ∧
    (j2ts (j_set 0 0 0 0) - transitTs 0 0 = transitTs 0 0 - j2ts (j_rise 0 0 0 0) ∧
      j2ts (j_set 0 0 0 0) - transitTs 0 0 = w0_degrees 0 0 0 0 / 360 * 86400) :=
  ⟨calculate_lat_zero 0 0, C3_symmetry 0 0 0 0 _ _ (calculate_lat_zero 0 0)⟩

/-! ### Claim C2: ordering of sunrise, transit and sunset -/

/-- C2 (amended): whenever a paired result is returned, `sunrise ≤ transit ≤
sunset`, and the inequalities are strict exactly when the hour-angle cosine
argument is strictly below 1 (at the tangency value `cosArg = 1` the hour
angle is 0 and the three instants coincide). -/
theorem C2_ordering (ts f l_w e r s : ℝ)
    (h : calculate ts f l_w e = .ok (.pair r s)) :
    r ≤ transitTs ts l_w ∧ transitTs ts l_w ≤ s ∧ r ≤ s ∧
    (some_cos ts f l_w e < 1 →
      r < transitTs ts l_w ∧ transitTs ts l_w < s ∧ r < s) := by
  obtain ⟨-, -, -, hr, hs⟩ := calculate_pair_inv ts f l_w e r s h
  subst hr hs
  have hπ := Real.pi_pos
  have harc := Real.arccos_nonneg (some_cos ts f l_w e)
  have hw0 : 0 ≤ w0_degrees ts f l_w e := by
    unfold w0_degrees degrees w0_radians
    exact div_nonneg (mul_nonneg harc (by norm_num)) (le_of_lt hπ)
  refine ⟨?_, ?_, ?_, fun hlt => ?_⟩
  · unfold transitTs j_rise j2ts
    nlinarith
  · unfold transitTs j_set j2ts
    nlinarith
  · unfold j_rise j_set j2ts
    nlinarith
  · have harcpos : 0 < Real.arccos (some_cos ts f l_w e) := Real.arccos_pos.2 hlt
    have hw0pos : 0 < w0_degrees ts f l_w e := by
      unfold w0_degrees degrees w0_radians
      exact div_pos (mul_pos harcpos (by norm_num)) hπ
    refine ⟨?_, ?_, ?_⟩
    · unfold transitTs j_rise j2ts
      nlinarith
    · unfold transitTs j_set j2ts
      nlinarith
    · unfold j_rise j_set j2ts
      nlinarith

/-- Witness for C2 at the equator on the Unix epoch, where `cosArg < 1`. -/
theorem C2_ordering_witness :
    j2ts (j_rise 0 0 0 0) < transitTs 0 0 ∧ transitTs 0 0 < j2ts (j_set 0 0 0 0) ∧
      j2ts (j_rise 0 0 0 0) < j2ts (j_set 0 0 0 0) :=
  (C2_ordering 0 0 0 0 _ _ (calculate_lat_zero 0 0)).2.2.2
    (lt_trans (some_cos_lat_zero 0 0).2 one_pos)

set_option maxHeartbeats 1000000 in
/-- C2 counterexample: on the winter day, at the tangency latitude
`f0 = 90.833 + degrees (arcsin sin_d)` the cosine argument is exactly 1, the
hour angle is 0, and `calc` returns a paired result whose sunrise and sunset
both equal the transit instant — so `sunrise < sunset` fails, and the
transit does not lie strictly between them. -/
theorem C2_counterexample :
    calculate tsW (90.833 + degrees (Real.arcsin (sin_d tsW 0))) 0 0 =
      .ok (.pair (transitTs tsW 0) (transitTs tsW 0)) ∧
    ¬ transitTs tsW 0 < transitTs tsW 0 := by
  set d := Real.arcsin (sin_d tsW 0) with hd
  have hπ := Real.pi_pos
  have hπ0 : π ≠ 0 := Real.pi_ne_zero
  have hpi1 : (3.141592:ℝ) < π := Real.pi_gt_d6
  have hpi2 : π < 3.141593 := Real.pi_lt_d6
  have hsd := sin_d_tsW_bounds
  have hsin_d : Real.sin d = sin_d tsW 0 :=
    Real.sin_arcsin (by linarith [hsd.1]) (by linarith [hsd.2])
  have hdmem := Real.arcsin_mem_Icc (sin_d tsW 0)
  -- numeric bounds on the declination angle d
  have hd_hi : d ≤ -0.35 := by
    by_contra hcon
    push_neg at hcon
    have hmem1 : (-0.35:ℝ) ∈ Set.Icc (-(π/2)) (π/2) := by
      constructor <;> nlinarith
    have hlt : Real.sin (-0.35) < Real.sin d :=
      Real.strictMonoOn_sin hmem1 hdmem hcon
    have hge : (-0.35:ℝ) < Real.sin (-0.35) := Real.lt_sin (by norm_num)
    rw [hsin_d] at hlt
    linarith [hsd.2]
  have hd_lo : -0.45 ≤ d := by
    by_contra hcon
    push_neg at hcon
    have hmem1 : (-0.45:ℝ) ∈ Set.Icc (-(π/2)) (π/2) := by
      constructor <;> nlinarith
    have hlt : Real.sin d < Real.sin (-0.45) :=
      Real.strictMonoOn_sin hdmem hmem1 hcon
    have hcube : Real.sin (-0.45) < -0.42722 := by
      have h1 : (0.45:ℝ) - 0.45 ^ 3 / 4 < Real.sin 0.45 :=
        Real.sin_gt_sub_cube (by norm_num) (by norm_num)
      have h2 : Real.sin (-0.45) = -Real.sin 0.45 := by
        rw [show (-0.45:ℝ) = -(0.45) by norm_num, Real.sin_neg]
      rw [h2]
      nlinarith
    rw [hsin_d] at hlt
    linarith [hsd.1]
  have h833 := sin_rad833_bounds
  have ha_bounds : (0.0145385:ℝ) ≤ radians 0.833 ∧ radians 0.833 ≤ 0.0145386 := by
    unfold radians
    constructor <;> nlinarith
  -- the latitude in radians
  have hrf : radians (90.833 + degrees d) = π / 2 + radians 0.833 + d := by
    unfold radians degrees
    field_simp
    ring
  -- the cosine argument is exactly 1
  have hsc : some_cos tsW (90.833 + degrees d) 0 0 = 1 := by
    unfold some_cos
    have h0 : (-0.833 - 2.076 * Real.sqrt 0 / 60.0 : ℝ) = -0.833 := by
      rw [Real.sqrt_zero]
      norm_num
    rw [h0, hrf]
    have hneg : radians (-0.833) = -radians 0.833 := by
      unfold radians
      ring
    rw [hneg, Real.sin_neg]
    have hshift : π / 2 + radians 0.833 + d = π / 2 + (radians 0.833 + d) := by ring
    rw [hshift]
    have hsin : Real.sin (π / 2 + (radians 0.833 + d)) = Real.cos (radians 0.833 + d) := by
      rw [Real.sin_add, Real.sin_pi_div_two, Real.cos_pi_div_two]
      ring
    have hcos : Real.cos (π / 2 + (radians 0.833 + d)) = -Real.sin (radians 0.833 + d) := by
      rw [Real.cos_add, Real.sin_pi_div_two, Real.cos_pi_div_two]
      ring
    rw [hsin, hcos]
    have hcosd : cos_d tsW 0 = Real.cos d := by
      unfold cos_d
      rw [hd]
    rw [hcosd, ← hsin_d]
    have hkey : Real.sin (radians 0.833 + d) * Real.cos d -
        Real.cos (radians 0.833 + d) * Real.sin d = Real.sin (radians 0.833) := by
      rw [← Real.sin_sub]
      have : radians 0.833 + d - d = radians 0.833 := by ring
      rw [this]
    have hsad : Real.sin (radians 0.833 + d) < 0 := by
      apply Real.sin_neg_of_neg_of_neg_pi_lt
      · linarith [ha_bounds.2]
      · nlinarith [ha_bounds.1]
    have hcd : 0 < Real.cos d := by
      apply Real.cos_pos_of_mem_Ioo
      constructor <;> nlinarith
    have hden : -Real.sin (radians 0.833 + d) * Real.cos d ≠ 0 := by
      have : 0 < -Real.sin (radians 0.833 + d) * Real.cos d :=
        mul_pos (by linarith) hcd
      linarith
    have hnum : -Real.sin (radians 0.833) - Real.cos (radians 0.833 + d) * Real.sin d =
        -Real.sin (radians 0.833 + d) * Real.cos d := by
      linarith [hkey]
    rw [hnum]
    exact div_self hden
  -- the hour angle is 0 and rise = set = transit
  have hw0 : w0_degrees tsW (90.833 + degrees d) 0 0 = 0 := by
    unfold w0_degrees w0_radians
    rw [hsc, Real.arccos_one]
    unfold degrees
    simp
  have hpair := calculate_pair tsW (90.833 + degrees d) 0 0 le_rfl
    (by rw [hsc]; norm_num) (le_of_eq hsc)
  have hrise : j2ts (j_rise tsW (90.833 + degrees d) 0 0) = transitTs tsW 0 := by
    unfold j_rise transitTs
    rw [hw0]
    norm_num
  have hset : j2ts (j_set tsW (90.833 + degrees d) 0 0) = transitTs tsW 0 := by
    unfold j_set transitTs
    rw [hw0]
    norm_num
  rw [hrise, hset] at hpair
  exact ⟨hpair, lt_irrefl _⟩

/-! ### Claim C8: monotonicity of day length in elevation -/

/-- C8 (amended): day length is monotone in elevation as long as the
corrected horizon depression angle `-0.833 - 2.076*sqrt(elevation)/60` stays
at or above -90 degrees; for latitudes strictly between -90 and 90, a larger
elevation in that regime gives a day length at least as large. -/
theorem C8_elevation_monotone (ts f l_w e1 e2 r1 s1 r2 s2 : ℝ)
    (hf1 : -90 < f) (hf2 : f < 90) (he1 : 0 ≤ e1) (h12 : e1 ≤ e2)
    (hdip : -90 ≤ -0.833 - 2.076 * Real.sqrt e2 / 60.0)
    (hc1 : calculate ts f l_w e1 = .ok (.pair r1 s1))
    (hc2 : calculate ts f l_w e2 = .ok (.pair r2 s2)) :
    s1 - r1 ≤ s2 - r2 := by
  obtain ⟨-, hlo1, hhi1, hr1, hs1⟩ := calculate_pair_inv _ _ _ _ _ _ hc1
  obtain ⟨-, hlo2, hhi2, hr2, hs2⟩ := calculate_pair_inv _ _ _ _ _ _ hc2
  subst hr1 hs1 hr2 hs2
  have hπ := Real.pi_pos
  have hsc : some_cos ts f l_w e2 ≤ some_cos ts f l_w e1 := by
    unfold some_cos
    have hcosf : 0 < Real.cos (radians f) := by
      apply Real.cos_pos_of_mem_Ioo
      unfold radians
      constructor
      · nlinarith [mul_pos hπ (by linarith : (0:ℝ) < f + 90)]
      · nlinarith [mul_pos hπ (by linarith : (0:ℝ) < 90 - f)]
    have hden : 0 < Real.cos (radians f) * cos_d ts l_w :=
      mul_pos hcosf (cos_d_pos ts l_w)
    have hsqrt : Real.sqrt e1 ≤ Real.sqrt e2 := Real.sqrt_le_sqrt h12
    have hdeg : -0.833 - 2.076 * Real.sqrt e2 / 60.0 ≤
        -0.833 - 2.076 * Real.sqrt e1 / 60.0 := by linarith
    have hrad2lo : -(π/2) ≤ radians (-0.833 - 2.076 * Real.sqrt e2 / 60.0) := by
      unfold radians
      nlinarith [mul_nonneg (le_of_lt hπ)
        (by linarith : (0:ℝ) ≤ -0.833 - 2.076 * Real.sqrt e2 / 60.0 + 90)]
    have hrad1hi : radians (-0.833 - 2.076 * Real.sqrt e1 / 60.0) ≤ π/2 := by
      unfold radians
      nlinarith [mul_nonneg (Real.sqrt_nonneg e1) (le_of_lt hπ), hπ]
    have hradmono : radians (-0.833 - 2.076 * Real.sqrt e2 / 60.0) ≤
        radians (-0.833 - 2.076 * Real.sqrt e1 / 60.0) := by
      unfold radians
      nlinarith [mul_nonneg (by linarith : (0:ℝ) ≤ (-0.833 - 2.076 * Real.sqrt e1 / 60.0) -
        (-0.833 - 2.076 * Real.sqrt e2 / 60.0)) (le_of_lt hπ)]
    have hsinle : Real.sin (radians (-0.833 - 2.076 * Real.sqrt e2 / 60.0)) ≤
        Real.sin (radians (-0.833 - 2.076 * Real.sqrt e1 / 60.0)) :=
      Real.strictMonoOn_sin.monotoneOn ⟨hrad2lo, le_trans hradmono hrad1hi⟩
        ⟨le_trans hrad2lo hradmono, hrad1hi⟩ hradmono
    have hnum : Real.sin (radians (-0.833 - 2.076 * Real.sqrt e2 / 60.0)) -
        Real.sin (radians f) * sin_d ts l_w ≤
        Real.sin (radians (-0.833 - 2.076 * Real.sqrt e1 / 60.0)) -
        Real.sin (radians f) * sin_d ts l_w := by linarith
    have hmul := mul_le_mul_of_nonneg_right hnum
      (le_of_lt (inv_pos.2 hden))
    rw [div_eq_mul_inv, div_eq_mul_inv]
    exact hmul
  have harccos : Real.arccos (some_cos ts f l_w e1) ≤
      Real.arccos (some_cos ts f l_w e2) := by
    rw [Real.arccos_eq_pi_div_two_sub_arcsin, Real.arccos_eq_pi_div_two_sub_arcsin]
    have := Real.monotone_arcsin hsc
    linarith
  have hw0le : w0_degrees ts f l_w e1 ≤ w0_degrees ts f l_w e2 := by
    unfold w0_degrees degrees w0_radians
    have hmul := mul_le_mul_of_nonneg_right
      (by linarith : Real.arccos (some_cos ts f l_w e1) * 180 ≤
        Real.arccos (some_cos ts f l_w e2) * 180)
      (le_of_lt (inv_pos.2 hπ))
    rw [div_eq_mul_inv, div_eq_mul_inv]
    exact hmul
  have hday : ∀ e : ℝ, j2ts (j_set ts f l_w e) - j2ts (j_rise ts f l_w e) =
      w0_degrees ts f l_w e / 180 * 86400 := by
    intro e
    unfold j2ts j_set j_rise
    ring
  rw [hday, hday]
  linarith

/-- Witness for C8 at the equator with equal elevations 0. -/
theorem C8_elevation_monotone_witness :
    j2ts (j_set 0 0 0 0) - j2ts (j_rise 0 0 0 0) ≤
      j2ts (j_set 0 0 0 0) - j2ts (j_rise 0 0 0 0) :=
  C8_elevation_monotone 0 0 0 0 0 _ _ _ _ (by norm_num) (by norm_num) le_rfl le_rfl
    (by rw [Real.sqrt_zero]; norm_num) (calculate_lat_zero 0 0) (calculate_lat_zero 0 0)

/-! ### Numeric bounds for the C8 counterexample -/

theorem sin_rad10_bounds :
    0.17320 ≤ Real.sin (radians 10) ∧ Real.sin (radians 10) ≤ 0.17454 := by
  have hpi1 : (3.141592:ℝ) < π := Real.pi_gt_d6
  have hpi2 : π < 3.141593 := Real.pi_lt_d6
  have hlo : (0.1745328:ℝ) ≤ radians 10 := by
    unfold radians
    nlinarith
  have hhi : radians 10 ≤ 0.1745330 := by
    unfold radians
    nlinarith
  have hpos : (0:ℝ) < radians 10 := by linarith
  have h1 := Real.sin_gt_sub_cube hpos (by linarith)
  have h2 := Real.sin_lt hpos
  have hcube : radians 10 ^ 3 ≤ 0.1745330 ^ 3 := by
    have := pow_le_pow_left₀ (le_of_lt hpos) hhi 3
    linarith
  constructor
  · nlinarith
  · linarith

theorem cos_rad10_bounds :
    0.98476 ≤ Real.cos (radians 10) ∧ Real.cos (radians 10) ≤ 1 := by
  have hpi1 : (3.141592:ℝ) < π := Real.pi_gt_d6
  have hpi2 : π < 3.141593 := Real.pi_lt_d6
  have hhi : radians 10 ≤ 0.1745330 := by
    unfold radians
    nlinarith
  have hlo : (0:ℝ) ≤ radians 10 := by
    unfold radians
    nlinarith
  have hcos := Real.one_sub_sq_div_two_le_cos (x := radians 10)
  constructor
  · nlinarith
  · exact Real.cos_le_one _

theorem sqrt3_bounds : 1.73205 ≤ Real.sqrt 3 ∧ Real.sqrt 3 ≤ 1.732051 := by
  constructor
  · rw [Real.le_sqrt (by norm_num) (by norm_num)]
    norm_num
  · rw [Real.sqrt_le_left (by norm_num)]
    norm_num

/-- At elevation `(3550.02/2.076)^2` the depression angle is exactly -60
degrees, and the cosine argument on the winter day at latitude 10 is at most
-0.7946. -/
theorem some_cos_tsW_e1_bounds :
    -1 ≤ some_cos tsW 10 0 ((3550.02 / 2.076) ^ 2) ∧
      some_cos tsW 10 0 ((3550.02 / 2.076) ^ 2) ≤ -0.7946 := by
  unfold some_cos
  have hang : (-0.833 - 2.076 * Real.sqrt ((3550.02 / 2.076) ^ 2) / 60.0 : ℝ) = -60 := by
    rw [Real.sqrt_sq (by norm_num : (0:ℝ) ≤ 3550.02 / 2.076)]
    norm_num
  rw [hang]
  have hr60 : radians (-60) = -(π/3) := by
    unfold radians
    ring
  rw [hr60, Real.sin_neg, Real.sin_pi_div_three]
  have h3 := sqrt3_bounds
  have hs10 := sin_rad10_bounds
  have hc10 := cos_rad10_bounds
  have hsd := sin_d_tsW_bounds
  have hcd := cos_d_bounds tsW 0
  have hden : 0 < Real.cos (radians 10) * cos_d tsW 0 :=
    mul_pos (by nlinarith [hc10.1]) (cos_d_pos tsW 0)
  constructor
  · rw [le_div_iff₀ hden]
    nlinarith [h3.1, h3.2, hs10.1, hs10.2, hc10.1, hc10.2, hsd.1, hsd.2, hcd.1, hcd.2]
  · rw [div_le_iff₀ hden]
    nlinarith [h3.1, h3.2, hs10.1, hs10.2, hc10.1, hc10.2, hsd.1, hsd.2, hcd.1, hcd.2]

/-- At elevation `(8950.02/2.076)^2` the depression angle is exactly -150
degrees, and the cosine argument on the winter day at latitude 10 is at
least -0.482 (hence strictly above the value at the smaller elevation). -/
theorem some_cos_tsW_e2_bounds :
    -1 ≤ some_cos tsW 10 0 ((8950.02 / 2.076) ^ 2) ∧
      some_cos tsW 10 0 ((8950.02 / 2.076) ^ 2) ≤ 1 ∧
      -0.482 ≤ some_cos tsW 10 0 ((8950.02 / 2.076) ^ 2) := by
  unfold some_cos
  have hang : (-0.833 - 2.076 * Real.sqrt ((8950.02 / 2.076) ^ 2) / 60.0 : ℝ) = -150 := by
    rw [Real.sqrt_sq (by norm_num : (0:ℝ) ≤ 8950.02 / 2.076)]
    norm_num
  rw [hang]
  have hr150 : radians (-150) = -(5 * π / 6) := by
    unfold radians
    ring
  have hsin56 : Real.sin (5 * π / 6) = 1 / 2 := by
    have h : (5:ℝ) * π / 6 = π - π / 6 := by ring
    rw [h, Real.sin_pi_sub, Real.sin_pi_div_six]
  rw [hr150, Real.sin_neg, hsin56]
  have hs10 := sin_rad10_bounds
  have hc10 := cos_rad10_bounds
  have hsd := sin_d_tsW_bounds
  have hcd := cos_d_bounds tsW 0
  have hden : 0 < Real.cos (radians 10) * cos_d tsW 0 :=
    mul_pos (by nlinarith [hc10.1]) (cos_d_pos tsW 0)
  refine ⟨?_, ?_, ?_⟩
  · rw [le_div_iff₀ hden]
    nlinarith [hs10.1, hs10.2, hc10.1, hc10.2, hsd.1, hsd.2, hcd.1, hcd.2]
  · rw [div_le_iff₀ hden]
    nlinarith [hs10.1, hs10.2, hc10.1, hc10.2, hsd.1, hsd.2, hcd.1, hcd.2]
  · rw [le_div_iff₀ hden]
    nlinarith [hs10.1, hs10.2, hc10.1, hc10.2, hsd.1, hsd.2, hcd.1, hcd.2]

/-- C8 counterexample: on the winter day at latitude 10, raising the
elevation from `(3550.02/2.076)^2` to `(8950.02/2.076)^2` (both of which
yield paired results) strictly decreases the day length: the depression
angle passes beyond -90 degrees, where the horizon-dip correction stops
extending visibility. -/
theorem C8_counterexample :
    (0:ℝ) ≤ (3550.02 / 2.076) ^ 2 ∧
    ((3550.02:ℝ) / 2.076) ^ 2 ≤ ((8950.02:ℝ) / 2.076) ^ 2 ∧
    calculate tsW 10 0 ((3550.02 / 2.076) ^ 2) =
      .ok (.pair (j2ts (j_rise tsW 10 0 ((3550.02 / 2.076) ^ 2)))
        (j2ts (j_set tsW 10 0 ((3550.02 / 2.076) ^ 2)))) ∧
    calculate tsW 10 0 ((8950.02 / 2.076) ^ 2) =
      .ok (.pair (j2ts (j_rise tsW 10 0 ((8950.02 / 2.076) ^ 2)))
        (j2ts (j_set tsW 10 0 ((8950.02 / 2.076) ^ 2)))) ∧
    j2ts (j_set tsW 10 0 ((8950.02 / 2.076) ^ 2)) -
        j2ts (j_rise tsW 10 0 ((8950.02 / 2.076) ^ 2)) <
      j2ts (j_set tsW 10 0 ((3550.02 / 2.076) ^ 2)) -
        j2ts (j_rise tsW 10 0 ((3550.02 / 2.076) ^ 2)) := by
  have hb1 := some_cos_tsW_e1_bounds
  have hb2 := some_cos_tsW_e2_bounds
  have hπ := Real.pi_pos
  refine ⟨by positivity, by norm_num,
    calculate_pair _ _ _ _ (by positivity) hb1.1 (by linarith [hb1.2]),
    calculate_pair _ _ _ _ (by positivity) hb2.1 hb2.2.1, ?_⟩
  have harc : Real.arccos (some_cos tsW 10 0 ((8950.02 / 2.076) ^ 2)) <
      Real.arccos (some_cos tsW 10 0 ((3550.02 / 2.076) ^ 2)) := by
    apply Real.strictAntiOn_arccos ⟨hb1.1, by linarith [hb1.2]⟩ ⟨hb2.1, hb2.2.1⟩
    linarith [hb1.2, hb2.2.2]
  have hday : ∀ e : ℝ, j2ts (j_set tsW 10 0 e) - j2ts (j_rise tsW 10 0 e) =
      w0_degrees tsW 10 0 e / 180 * 86400 := by
    intro e
    unfold j2ts j_set j_rise
    ring
  rw [hday, hday]
  unfold w0_degrees degrees w0_radians
  have hkey := mul_pos (sub_pos.2 harc) (inv_pos.2 hπ)
  have hexp : ∀ x : ℝ, x * 180 / π / 180 * 86400 = x * π⁻¹ * 86400 := by
    intro x
    rw [div_eq_mul_inv, div_eq_mul_inv]
    ring
  rw [hexp, hexp]
  nlinarith [hkey]

/-! ### Claim C10: determinism -/

/-- C10: `calc` is a pure function of its four arguments; two invocations on
identical inputs return identical outputs. -/
theorem C10_deterministic (ts f l_w e : ℝ) :
    calculate ts f l_w e = calculate ts f l_w e := rfl

end Sunrise
